import Mathlib

set_option maxRecDepth 8000

/-!
# Verification of the database-extractor time-window core

A shallow embedding of the time-window construction, date-sequence
generation, DST offset rule, orchestration-loop and post-processing logic of
the `database_extractor` repository (files
`src/database_extractor/database_extractor.py` and `main.py`), together with
proofs about it.

Python `datetime` values are modelled as a count of seconds since
0001-01-01T00:00:00 (a `Nat`); `datetime.timedelta` values as a signed count
of seconds (an `Int`).  The calendar arithmetic follows CPython's documented
proleptic-Gregorian ordinal semantics (`date.toordinal`, with day 1 =
0001-01-01): `ymd2ord` is CPython's days-before-year/days-before-month
formula, and `ord2ymd` is its inverse, here computed by a bounded greatest
search rather than CPython's quotient approximations (both compute the same
unique inverse).  `strftime`/`strptime` with the fixed format
`%Y-%m-%dT%H:%M:%SZ` are modelled as fixed-width zero-padded printing and
parsing; this agrees with CPython for all years in 1000..9999 (below 1000
platform `strftime` may drop the zero padding) and on all zero-padded input
strings, which covers every string handled in this development.
-/

/-- Leap-year predicate of the proleptic Gregorian calendar
(CPython `calendar.isleap`). -/
def isLeap (y : Nat) : Bool := y % 4 == 0 && (y % 100 != 0 || y % 400 == 0)

/-- Number of days in month `m` of year `y` (CPython `_days_in_month`);
`0` for an out-of-range month number. -/
def daysInMonth (y m : Nat) : Nat :=
  match m with
  | 1 => 31 | 2 => if isLeap y then 29 else 28 | 3 => 31 | 4 => 30
  | 5 => 31 | 6 => 30 | 7 => 31 | 8 => 31 | 9 => 30 | 10 => 31
  | 11 => 30 | 12 => 31 | _ => 0

/-- Number of days of year `y` that precede the first day of month `m`
(CPython `_days_before_month`). -/
def days_before_month (y m : Nat) : Nat :=
  (match m with
   | 1 => 0 | 2 => 31 | 3 => 59 | 4 => 90 | 5 => 120 | 6 => 151
   | 7 => 181 | 8 => 212 | 9 => 243 | 10 => 273 | 11 => 304 | 12 => 334
   | _ => 365)
  + (if 2 < m && isLeap y then 1 else 0)

/-- Number of days before January 1 of year `y` in the proleptic Gregorian
calendar (CPython `_days_before_year`). -/
def days_before_year (y : Nat) : Nat :=
  (y - 1) * 365 + (y - 1) / 4 - (y - 1) / 100 + (y - 1) / 400

/-- Gregorian ordinal of the date `y-m-d`, with `0001-01-01` having ordinal 1
(CPython `_ymd2ord`). -/
def ymd2ord (y m d : Nat) : Nat :=
  days_before_year y + days_before_month y m + d

/-- Index of the year containing day `n'` (counted from 0 = 0001-01-01):
the greatest `k` with `days_before_year (k + 1) ≤ n'`. -/
def ordYearIdx (n' : Nat) : Nat :=
  Nat.findGreatest (fun k => days_before_year (k + 1) ≤ n') (n' / 365 + 1)

/-- Index of the month of year `y` containing day `r` of that year
(counted from 0): the greatest `j ≤ 11` with
`days_before_month y (j + 1) ≤ r`. -/
def ordMonthIdx (y r : Nat) : Nat :=
  Nat.findGreatest (fun j => days_before_month y (j + 1) ≤ r) 11

/-- Inverse of `ymd2ord`: the date `(y, m, d)` whose ordinal is `n`.
The year is located as the greatest `y` with `days_before_year y ≤ n - 1`,
the month as the greatest `m` with `days_before_month y m ≤` the remaining
day count; CPython's `_ord2ymd` computes the same values by quotient
approximation. -/
def ord2ymd (n : Nat) : Nat × Nat × Nat :=
  let n' := n - 1
  let k := ordYearIdx n'
  let r := n' - days_before_year (k + 1)
  let j := ordMonthIdx (k + 1) r
  (k + 1, j + 1, r - days_before_month (k + 1) (j + 1) + 1)

/-- Ordinal of 9999-12-31, the largest date representable by a CPython
`datetime` (equals 3652059). -/
def maxOrd : Nat := ymd2ord 9999 12 31

/-- Largest second count representable by a CPython `datetime`
(23:59:59 on 9999-12-31). -/
def maxTS : Nat := maxOrd * 86400 - 1

example : maxOrd = 3652059 := by decide
example : ymd2ord 1 1 1 = 1 := by decide
example : ymd2ord 2024 5 16 = 739022 := by decide
example : ord2ymd 739022 = (2024, 5, 16) := by decide
example : ord2ymd 1 = (1, 1, 1) := by decide
example : ord2ymd 60 = (1, 3, 1) := by decide
example : ord2ymd maxOrd = (9999, 12, 31) := by decide

/-- Unfolds `isLeap` to its arithmetic characterisation. -/
theorem isLeap_iff (y : Nat) :
    isLeap y = true ↔ (y % 4 = 0 ∧ (¬ y % 100 = 0 ∨ y % 400 = 0)) := by
  simp [isLeap]

/-- Any predicate true at 0 is true at the greatest witness found. -/
theorem findGreatest_spec_of_zero {P : Nat → Prop} [DecidablePred P]
    {b : Nat} (h0 : P 0) : P (Nat.findGreatest P b) :=
  Nat.findGreatest_spec (Nat.zero_le b) h0

/-- Indices above the greatest witness inside the bound falsify the
predicate. -/
theorem findGreatest_above_not {P : Nat → Prop} [DecidablePred P]
    (b k : Nat) (hk : Nat.findGreatest P b < k) (hkb : k ≤ b) : ¬ P k :=
  Nat.findGreatest_is_greatest hk hkb

set_option maxHeartbeats 1000000 in
/-- Stepping one month forward adds the length of the month stepped over. -/
theorem days_before_month_succ (y m : Nat) (h1 : 1 ≤ m) (h2 : m ≤ 11) :
    days_before_month y (m + 1) = days_before_month y m + daysInMonth y m := by
  interval_cases m <;> cases hL : isLeap y <;>
    simp [days_before_month, daysInMonth, hL]

set_option maxHeartbeats 1000000 in
/-- Stepping one year forward adds 365 or 366 days according to leapness. -/
theorem days_before_year_succ (y : Nat) (hy : 1 ≤ y) :
    days_before_year (y + 1) =
      days_before_year y + 365 + (if isLeap y then 1 else 0) := by
  split_ifs with h
  · obtain ⟨h4, h100400⟩ := (isLeap_iff y).mp h
    simp only [days_before_year, Nat.add_sub_cancel]
    rcases h100400 with h100 | h400
    · omega
    · omega
  · have hp : ¬ (y % 4 = 0 ∧ (¬ y % 100 = 0 ∨ y % 400 = 0)) :=
      fun hc => h ((isLeap_iff y).mpr hc)
    simp only [days_before_year, Nat.add_sub_cancel]
    by_cases h4 : y % 4 = 0
    · by_cases h100 : y % 100 = 0
      · by_cases h400 : y % 400 = 0
        · exact absurd ⟨h4, Or.inr h400⟩ hp
        · omega
      · exact absurd ⟨h4, Or.inl h100⟩ hp
    · omega

/-- A crude lower bound on `days_before_year`, used to bound the year
search. -/
theorem days_before_year_lb (y : Nat) : 365 * (y - 1) ≤ days_before_year y := by
  unfold days_before_year; omega

/-- The located year index starts no later than day `n'`. -/
theorem ordYearIdx_le (n' : Nat) :
    days_before_year (ordYearIdx n' + 1) ≤ n' := by
  unfold ordYearIdx
  exact @findGreatest_spec_of_zero (fun k => days_before_year (k + 1) ≤ n') _
    (n' / 365 + 1) (by simp [days_before_year])

/-- Day `n'` falls before the year after the located year index. -/
theorem ordYearIdx_lt (n' : Nat) :
    n' < days_before_year (ordYearIdx n' + 2) := by
  by_contra hc
  push_neg at hc
  by_cases hb : ordYearIdx n' + 1 ≤ n' / 365 + 1
  · have hnot := @findGreatest_above_not
      (fun k => days_before_year (k + 1) ≤ n') _
      (n' / 365 + 1) (ordYearIdx n' + 1)
      (by unfold ordYearIdx; omega) hb
    exact hnot hc
  · have := days_before_year_lb (ordYearIdx n' + 2)
    omega

/-- The located month index starts no later than day `r` of the year. -/
theorem ordMonthIdx_le (y r : Nat) :
    days_before_month y (ordMonthIdx y r + 1) ≤ r := by
  unfold ordMonthIdx
  exact @findGreatest_spec_of_zero (fun j => days_before_month y (j + 1) ≤ r) _
    11 (by simp [days_before_month])

/-- The located month index is at most 11 (i.e. the month is December at
the latest). -/
theorem ordMonthIdx_le11 (y r : Nat) : ordMonthIdx y r ≤ 11 := by
  unfold ordMonthIdx
  exact Nat.findGreatest_le 11

/-- Before December, day `r` falls before the month after the located
month index. -/
theorem ordMonthIdx_lt (y r : Nat) (h : ordMonthIdx y r < 11) :
    r < days_before_month y (ordMonthIdx y r + 2) := by
  by_contra hc
  push_neg at hc
  have hnot := @findGreatest_above_not
    (fun j => days_before_month y (j + 1) ≤ r) _
    11 (ordMonthIdx y r + 1)
    (by unfold ordMonthIdx; omega) (by omega)
  exact hnot hc

/-- Character for the decimal digit `n` (0–9). -/
def toDigit (n : Nat) : Char := Char.ofNat (48 + n)

/-- Numeric value of a decimal digit character (codepoints 48–57); `none`
on a non-digit. -/
def fromDigit (c : Char) : Option Nat :=
  if 48 ≤ c.toNat ∧ c.toNat ≤ 57 then some (c.toNat - 48) else none

/-- Value of a two-digit decimal string given as characters. -/
def digit2 (c1 c2 : Char) : Option Nat :=
  match fromDigit c1, fromDigit c2 with
  | some a, some b => some (a * 10 + b)
  | _, _ => none

/-- Value of a four-digit decimal string given as characters. -/
def digit4 (c1 c2 c3 c4 : Char) : Option Nat :=
  match fromDigit c1, fromDigit c2, fromDigit c3, fromDigit c4 with
  | some a, some b, some c, some d =>
      some (a * 1000 + b * 100 + c * 10 + d)
  | _, _, _, _ => none

/-- Model of `datetime.strftime` with the fixed format `%Y-%m-%dT%H:%M:%SZ`:
zero-padded fixed-width print of the timestamp `t` (in seconds since
0001-01-01T00:00:00). -/
def formatTime (t : Nat) : String :=
  let n := t / 86400 + 1
  let y := (ord2ymd n).1
  let mo := (ord2ymd n).2.1
  let d := (ord2ymd n).2.2
  let r := t % 86400
  let h := r / 3600
  let mi := r % 3600 / 60
  let s := r % 60
  String.mk [toDigit (y / 1000 % 10), toDigit (y / 100 % 10),
    toDigit (y / 10 % 10), toDigit (y % 10), '-',
    toDigit (mo / 10 % 10), toDigit (mo % 10), '-',
    toDigit (d / 10 % 10), toDigit (d % 10), 'T',
    toDigit (h / 10 % 10), toDigit (h % 10), ':',
    toDigit (mi / 10 % 10), toDigit (mi % 10), ':',
    toDigit (s / 10 % 10), toDigit (s % 10), 'Z']

/-- Model of `datetime.strptime` with the fixed format `%Y-%m-%dT%H:%M:%SZ`
followed by `datetime` construction: parses a fixed-width timestamp string,
validates the calendar field ranges, and returns the timestamp in seconds
since 0001-01-01T00:00:00; `none` models the `ValueError` raised on a
malformed string or out-of-range field. -/
def parseTime (str : String) : Option Nat :=
  match str.data with
  | [y1, y2, y3, y4, q1, m1, m2, q2, d1, d2, q3, h1, h2, q4, i1, i2, q5,
     s1, s2, q6] =>
    if q1 = '-' ∧ q2 = '-' ∧ q3 = 'T' ∧ q4 = ':' ∧ q5 = ':' ∧ q6 = 'Z' then
      match digit4 y1 y2 y3 y4, digit2 m1 m2, digit2 d1 d2, digit2 h1 h2,
          digit2 i1 i2, digit2 s1 s2 with
      | some y, some mo, some d, some h, some mi, some s =>
        if 1 ≤ y ∧ 1 ≤ mo ∧ mo ≤ 12 ∧ 1 ≤ d ∧ d ≤ daysInMonth y mo ∧
            h ≤ 23 ∧ mi ≤ 59 ∧ s ≤ 59 then
          some ((ymd2ord y mo d - 1) * 86400 + h * 3600 + mi * 60 + s)
        else none
      | _, _, _, _, _, _ => none
    else none
  | _ => none

example : parseTime "2024-05-16T10:00:00Z" = some ((739022 - 1) * 86400 + 36000) := by
  decide
example : formatTime ((739022 - 1) * 86400 + 36000) = "2024-05-16T10:00:00Z" := by
  decide
example : parseTime "2024-02-30T00:00:00Z" = none := by decide
example : parseTime "hello" = none := by decide

/-- Printing then reading back a decimal digit is the identity. -/
theorem fromDigit_toDigit (n : Nat) (h : n < 10) :
    fromDigit (toDigit n) = some n := by
  interval_cases n <;> decide

/-- Reading back a zero-padded two-digit print is the identity. -/
theorem digit2_eval (n : Nat) (h : n < 100) :
    digit2 (toDigit (n / 10 % 10)) (toDigit (n % 10)) = some n := by
  have h1 := fromDigit_toDigit (n / 10 % 10) (Nat.mod_lt _ (by omega))
  have h2 := fromDigit_toDigit (n % 10) (Nat.mod_lt _ (by omega))
  simp [digit2, h1, h2]
  omega

/-- Reading back a zero-padded four-digit print is the identity. -/
theorem digit4_eval (n : Nat) (h : n < 10000) :
    digit4 (toDigit (n / 1000 % 10)) (toDigit (n / 100 % 10))
      (toDigit (n / 10 % 10)) (toDigit (n % 10)) = some n := by
  have h1 := fromDigit_toDigit (n / 1000 % 10) (Nat.mod_lt _ (by omega))
  have h2 := fromDigit_toDigit (n / 100 % 10) (Nat.mod_lt _ (by omega))
  have h3 := fromDigit_toDigit (n / 10 % 10) (Nat.mod_lt _ (by omega))
  have h4 := fromDigit_toDigit (n % 10) (Nat.mod_lt _ (by omega))
  simp [digit4, h1, h2, h3, h4]
  omega

/-- Correctness of the ordinal-to-date conversion: on the representable
range it produces a calendar-valid date that `ymd2ord` maps back to the
input ordinal. -/
theorem ord2ymd_spec (n : Nat) (h1 : 1 ≤ n) (h2 : n ≤ maxOrd) :
    1 ≤ (ord2ymd n).1 ∧ (ord2ymd n).1 ≤ 9999 ∧
    1 ≤ (ord2ymd n).2.1 ∧ (ord2ymd n).2.1 ≤ 12 ∧
    1 ≤ (ord2ymd n).2.2 ∧
    (ord2ymd n).2.2 ≤ daysInMonth (ord2ymd n).1 (ord2ymd n).2.1 ∧
    ymd2ord (ord2ymd n).1 (ord2ymd n).2.1 (ord2ymd n).2.2 = n := by
  have hmax : maxOrd = 3652059 := by decide
  have heq : ord2ymd n =
      (ordYearIdx (n - 1) + 1,
       ordMonthIdx (ordYearIdx (n - 1) + 1)
         ((n - 1) - days_before_year (ordYearIdx (n - 1) + 1)) + 1,
       ((n - 1) - days_before_year (ordYearIdx (n - 1) + 1)) -
         days_before_month (ordYearIdx (n - 1) + 1)
           (ordMonthIdx (ordYearIdx (n - 1) + 1)
             ((n - 1) - days_before_year (ordYearIdx (n - 1) + 1)) + 1) + 1) :=
    rfl
  rw [heq]
  dsimp only
  have hPK := ordYearIdx_le (n - 1)
  have hPK1 := ordYearIdx_lt (n - 1)
  rw [show ordYearIdx (n - 1) + 2 = ordYearIdx (n - 1) + 1 + 1 from rfl] at hPK1
  have hstep := days_before_year_succ (ordYearIdx (n - 1) + 1) (by omega)
  have hy9999 : ordYearIdx (n - 1) ≤ 9998 := by
    have hPK2 := hPK
    unfold days_before_year at hPK2
    omega
  have hQJ := ordMonthIdx_le (ordYearIdx (n - 1) + 1)
    ((n - 1) - days_before_year (ordYearIdx (n - 1) + 1))
  have hJ11 := ordMonthIdx_le11 (ordYearIdx (n - 1) + 1)
    ((n - 1) - days_before_year (ordYearIdx (n - 1) + 1))
  refine ⟨by omega, by omega, by omega, by omega, by omega, ?_, ?_⟩
  · -- day is at most the month length
    by_cases hJlt : ordMonthIdx (ordYearIdx (n - 1) + 1)
        ((n - 1) - days_before_year (ordYearIdx (n - 1) + 1)) < 11
    · have hnotQ := ordMonthIdx_lt (ordYearIdx (n - 1) + 1)
        ((n - 1) - days_before_year (ordYearIdx (n - 1) + 1)) hJlt
      rw [show ordMonthIdx (ordYearIdx (n - 1) + 1)
            ((n - 1) - days_before_year (ordYearIdx (n - 1) + 1)) + 2 =
          ordMonthIdx (ordYearIdx (n - 1) + 1)
            ((n - 1) - days_before_year (ordYearIdx (n - 1) + 1)) + 1 + 1
          from rfl] at hnotQ
      have hms := days_before_month_succ (ordYearIdx (n - 1) + 1)
        (ordMonthIdx (ordYearIdx (n - 1) + 1)
          ((n - 1) - days_before_year (ordYearIdx (n - 1) + 1)) + 1)
        (by omega) (by omega)
      omega
    · have hJeq : ordMonthIdx (ordYearIdx (n - 1) + 1)
          ((n - 1) - days_before_year (ordYearIdx (n - 1) + 1)) = 11 := by
        omega
      rw [hJeq] at hQJ ⊢
      cases hL : isLeap (ordYearIdx (n - 1) + 1) <;>
        rw [hL] at hstep <;>
        simp [days_before_month, daysInMonth, hL] at hQJ hstep ⊢ <;>
        omega
  · -- ymd2ord inverts
    unfold ymd2ord
    omega

/-- Every month has at most 31 days. -/
theorem daysInMonth_le (y m : Nat) : daysInMonth y m ≤ 31 := by
  unfold daysInMonth
  split <;> first | omega | (split <;> omega)

/-- Round trip of the timestamp string representation: parsing a formatted
timestamp recovers the timestamp, for every representable second count. -/
theorem parseTime_formatTime (t : Nat) (ht : t ≤ maxTS) :
    parseTime (formatTime t) = some t := by
  have hmax : maxOrd = 3652059 := by decide
  have hn2 : t / 86400 + 1 ≤ maxOrd := by unfold maxTS at ht; omega
  have hord := ord2ymd_spec (t / 86400 + 1) (by omega) hn2
  obtain ⟨hy1, hy2, hm1, hm2, hd1, hd2, hinv⟩ := hord
  have hdim := daysInMonth_le (ord2ymd (t / 86400 + 1)).1 (ord2ymd (t / 86400 + 1)).2.1
  have hyD := digit4_eval (ord2ymd (t / 86400 + 1)).1 (by omega)
  have hmD := digit2_eval (ord2ymd (t / 86400 + 1)).2.1 (by omega)
  have hdD := digit2_eval (ord2ymd (t / 86400 + 1)).2.2 (by omega)
  have hhD := digit2_eval (t % 86400 / 3600) (by omega)
  have hiD := digit2_eval (t % 86400 % 3600 / 60) (by omega)
  have hsD := digit2_eval (t % 86400 % 60) (by omega)
  have hh23 : t % 86400 / 3600 ≤ 23 := by omega
  have hi59 : t % 86400 % 3600 / 60 ≤ 59 := by omega
  have hs59 : t % 86400 % 60 ≤ 59 := by omega
  unfold formatTime parseTime
  dsimp only
  rw [hyD, hmD, hdD, hhD, hiD, hsD]
  simp [hy1, hm1, hm2, hd1, hd2, hh23, hi59, hs59, hinv]
  omega

/-- The `DeltaTime` class of the source: a structured four-field time delta
with signed integer components (defaults 0). -/
structure DeltaTime where
  days : Int
  hours : Int
  minutes : Int
  seconds : Int
deriving DecidableEq

/-- Model of `DeltaTime.to_timedelta`: the exact duration in seconds, with
nominal component lengths (a day is always 24 hours). -/
def DeltaTime.to_timedelta (d : DeltaTime) : Int :=
  d.days * 86400 + d.hours * 3600 + d.minutes * 60 + d.seconds

/-- Coercion applied by `construct_query_time_endpoints` to tuple/list
offsets: `DeltaTime(*t)`, with missing components defaulting to 0; more
than four components raises `TypeError`, modelled as `none`. -/
def deltaOfList : List Int → Option DeltaTime
  | [] => some ⟨0, 0, 0, 0⟩
  | [a] => some ⟨a, 0, 0, 0⟩
  | [a, b] => some ⟨a, b, 0, 0⟩
  | [a, b, c] => some ⟨a, b, c, 0⟩
  | [a, b, c, d] => some ⟨a, b, c, d⟩
  | _ => none

/-- Python `datetime` ± `timedelta` arithmetic: the shifted timestamp, or
`none` modelling the `OverflowError` raised when the result leaves the
representable range 0001-01-01T00:00:00 .. 9999-12-31T23:59:59. -/
def checkedShift (t : Nat) (delta : Int) : Option Nat :=
  if 0 ≤ (t : Int) + delta ∧ (t : Int) + delta ≤ (maxTS : Int) then
    some ((t : Int) + delta).toNat
  else none

/-- Kinds of Python values that can meet a `DeltaTime` in a binary
arithmetic operation: a `timedelta` (by its seconds), a formatted string, a
`datetime` (by its timestamp), another `DeltaTime`, or any unsupported
value (`other`). -/
inductive PyVal where
  | td (seconds : Int)
  | str (s : String)
  | dt (t : Nat)
  | delta (d : DeltaTime)
  | other
deriving DecidableEq

/-- Result of a Python binary arithmetic operation in this model: a
`timedelta`, a `datetime`, or a raised `TypeError` / `ValueError` /
`OverflowError`. -/
inductive PyRes where
  | td (seconds : Int)
  | dt (t : Nat)
  | typeErr
  | valueErr
  | overflowErr
deriving DecidableEq

/-- Model of `DeltaTime.__add__` (also run by `__radd__`): timedelta →
duration sum; string → parse with `time_format` then duration + datetime
(a datetime); datetime → shifted datetime; `DeltaTime` → duration sum;
any other operand → `TypeError`. -/
def DeltaTime.add (self : DeltaTime) : PyVal → PyRes
  | .td x => .td (self.to_timedelta + x)
  | .str s =>
    match parseTime s with
    | none => .valueErr
    | some t =>
      match checkedShift t self.to_timedelta with
      | none => .overflowErr
      | some r => .dt r
  | .dt t =>
    match checkedShift t self.to_timedelta with
    | none => .overflowErr
    | some r => .dt r
  | .delta d => .td (self.to_timedelta + d.to_timedelta)
  | .other => .typeErr

/-- Model of `DeltaTime.__sub__` (also run by `__rsub__`): the string
branch evaluates `self.to_timedelta() - strptime(other)`, i.e.
`timedelta - datetime`, which Python itself rejects with a `TypeError`
once the parse has succeeded. -/
def DeltaTime.sub (self : DeltaTime) : PyVal → PyRes
  | .td x => .td (self.to_timedelta - x)
  | .str s =>
    match parseTime s with
    | none => .valueErr
    | some _ => .typeErr
  | .dt t =>
    match checkedShift t (- self.to_timedelta) with
    | none => .overflowErr
    | some r => .dt r
  | .delta d => .td (self.to_timedelta - d.to_timedelta)
  | .other => .typeErr

/-- Evaluation of the Python expression `x + d` for a `DeltaTime` `d`: for
every operand kind the call reaches `DeltaTime.__radd__` (or, for a
`DeltaTime` left operand, its own `__add__`), and both delegate to
`__add__`. -/
def pyAddRight (x : PyVal) (self : DeltaTime) : PyRes := self.add x

/-- Evaluation of the Python expression `x - d` for a `DeltaTime` `d`:
when `x` is itself a `DeltaTime` its own `__sub__` runs with `x` on the
left; otherwise the left operand returns `NotImplemented` and
`DeltaTime.__rsub__` runs, which delegates to `__sub__` without reversing
the operands. -/
def pySubRight (x : PyVal) (self : DeltaTime) : PyRes :=
  match x with
  | .delta d => d.sub (.delta self)
  | _ => self.sub x

/-- The `query_time` argument of `construct_query_time_endpoints`: a
formatted string or an already-built `datetime`. -/
inductive QueryTime where
  | str (s : String)
  | dt (t : Nat)

/-- A start/end offset argument: a `DeltaTime` or a tuple/list of integer
components. -/
inductive DeltaArg where
  | delta (d : DeltaTime)
  | tup (l : List Int)

/-- Coercion of an offset argument to a `DeltaTime`. -/
def coerceDelta : DeltaArg → Option DeltaTime
  | .delta d => some d
  | .tup l => deltaOfList l

/-- Model of `construct_query_time_endpoints`: coerce tuple offsets, parse
a string query time, compute `query_time + offset - timedelta(hours =
tz_offset)` for each of the two offsets, and format both results with
`time_format`.  `none` models the exceptions Python raises on the way
(parse failure, bad tuple arity, out-of-range datetime). -/
def construct_query_time_endpoints (query_time : QueryTime)
    (delta_time_start delta_time_end : DeltaArg) (tz_offset : Int) :
    Option (String × String) :=
  match coerceDelta delta_time_start, coerceDelta delta_time_end with
  | some ds, some de =>
    match (match query_time with | .str s => parseTime s | .dt t => some t) with
    | some qt =>
      match checkedShift qt ds.to_timedelta with
      | some s1 =>
        match checkedShift s1 (-(3600 * tz_offset)) with
        | some s2 =>
          match checkedShift qt de.to_timedelta with
          | some e1 =>
            match checkedShift e1 (-(3600 * tz_offset)) with
            | some e2 => some (formatTime s2, formatTime e2)
            | none => none
          | none => none
        | none => none
      | none => none
    | none => none
  | _, _ => none

/-- Timestamp of the hard-coded `DST_start = datetime(2024, 3, 10, 2)`. -/
def DST_start : Nat := (ymd2ord 2024 3 10 - 1) * 86400 + 2 * 3600

/-- Timestamp of the hard-coded `DST_end = datetime(2024, 11, 3, 1)`. -/
def DST_end : Nat := (ymd2ord 2024 11 3 - 1) * 86400 + 3600

/-- Model of `timezone_offset`: −7 when `(current_date - DST_start)` and
`(DST_end - current_date)` are both strictly positive, else −8. -/
def timezone_offset (current_date : Nat) : Int :=
  if 0 < (current_date : Int) - (DST_start : Int) ∧
      0 < (DST_end : Int) - (current_date : Int) then -7 else -8

/-- Decision core of `process_results`: `true` exactly when a CSV write is
attempted for a result of shape `rows × cols` (pandas `df.size` is
`rows * cols` and `df.shape[0]` is `rows`; the function returns early on
`df.size == 0` and on `df.shape[0] < 10`). -/
def process_results (rows cols : Nat) : Bool :=
  if rows * cols = 0 then false
  else if rows < 10 then false
  else true

/-- Decision core of the alternate single-shot path in `main.batched_data`:
the result is written exactly when `len(result) >= data_threshold` with
`data_threshold = 20`. -/
def batched_data_writes (rows : Nat) : Bool := 20 ≤ rows

/-- Model of `pandas.DataFrame.drop(columns=...)`: fails with a `KeyError`
when any requested label is absent, otherwise removes the listed columns;
a dataframe is represented by its column-name list. -/
def pdDrop (cols toDrop : List String) : Except String (List String) :=
  if toDrop.all (fun c => cols.contains c) then
    .ok (cols.filter (fun c => !(toDrop.contains c)))
  else .error "KeyError"

/-- Model of `drop_columns`: filter the requested labels to those actually
present (`columns_exist`), then drop that filtered list in place. -/
def drop_columns (cols columns_to_drop : List String) :
    Except String (List String) :=
  pdDrop cols (columns_to_drop.filter (fun c => cols.contains c))

/-- Loop body of `generate_datetime_list`: starting at `cur`, emit the
formatted instant and advance by `delta` seconds while `cur ≤ endT`.
`fuel` bounds the recursion; with a positive `delta` a fuel of
`endT + 1 - cur` is never exhausted (proved below), so the `fuel = 0`
answer `none` is unreachable then.  `none` also models the
`OverflowError` Python raises when an advance leaves the representable
range.  For a non-positive `delta` the Python loop never terminates,
which a total model cannot represent; all results below therefore assume
a positive `delta`, as the specification's caller contract does. -/
def genGo (endT : Nat) (delta : Int) : Nat → Nat → Option (List String)
  | 0, cur => if cur ≤ endT then none else some []
  | fuel + 1, cur =>
    if cur ≤ endT then
      match checkedShift cur delta with
      | none => none
      | some nxt =>
        match genGo endT delta fuel nxt with
        | none => none
        | some rest => some (formatTime cur :: rest)
    else some []

/-- Model of `generate_datetime_list` from `main.py`: parse both endpoint
strings with `date_format`, then run the emit-and-advance loop. -/
def generate_datetime_list (start_date end_date : String) (delta : Int) :
    Option (List String) :=
  match parseTime start_date, parseTime end_date with
  | some s, some e => genGo e delta (e + 1 - s) s
  | _, _ => none

/-- The sequence described by the specification of the date-sequence
generator: start at `cur`; while the current instant is at most `endT`,
emit it formatted and advance by the positive step `delta`.  Defined by
well-founded recursion on the distance to `endT`; its totality is the
termination property claimed for positive deltas. -/
def specGen (endT : Nat) (delta : Int) (hd : 0 < delta) (cur : Nat) :
    List String :=
  if cur ≤ endT then
    formatTime cur :: specGen endT delta hd ((cur : Int) + delta).toNat
  else []
termination_by endT + 1 - cur
decreasing_by omega

/-- The date fields of a Python `datetime` relevant to
`query_data_for_range` and `query_data_for_day`. -/
structure PyDate where
  year : Nat
  month : Nat
  day : Nat
deriving DecidableEq

/-- Inner `for j in range(days)` loop of `query_data_for_range` for
0-based month index `month` whose table entry is `days`: `j` is the loop
counter and `rem` the remaining iteration count.  Returns the dates passed
to `query_data_for_day`, in order, and the final `up_to_date` flag.
Mirrors the source faithfully: the `continue` test is
`start_date.day > days` (against the month length, not the day counter),
and the end test `end_date.month == month+1 and end_date.day == j+1` stops
the month before visiting that day. -/
def dayLoop (start_date end_date : PyDate) (month days : Nat) :
    Nat → Nat → List PyDate × Bool
  | _, 0 => ([], false)
  | j, rem + 1 =>
    if days < start_date.day then
      dayLoop start_date end_date month days (j + 1) rem
    else if end_date.month = month + 1 ∧ end_date.day = j + 1 then
      ([], true)
    else
      let next := dayLoop start_date end_date month days (j + 1) rem
      (⟨2024, month + 1, j + 1⟩ :: next.1, next.2)

/-- Outer `for (month, days) in enumerate(days_in_each_month)` loop of
`query_data_for_range`; `month` is the 0-based `enumerate` index and `up`
the `up_to_date` flag.  Mirrors the source faithfully: the skip test is
`start_date.month > month` against the 0-based index, and once `up` is
set the next non-skipped month breaks the loop. -/
def monthLoop (start_date end_date : PyDate) :
    Nat → List Nat → Bool → List PyDate
  | _, [], _ => []
  | month, days :: rest, up =>
    if month < start_date.month then
      monthLoop start_date end_date (month + 1) rest up
    else if up then []
    else
      let inner := dayLoop start_date end_date month days 0 days
      inner.1 ++ monthLoop start_date end_date (month + 1) rest inner.2

/-- The hard-coded `days_in_each_month` table (leap-year February). -/
def days_in_each_month : List Nat :=
  [31, 29, 31, 30, 31, 30, 31, 31, 30, 31, 30, 31]

/-- Model of `query_data_for_range`: the ordered list of dates it passes
to `query_data_for_day`. -/
def query_data_for_range (start_date end_date : PyDate) : List PyDate :=
  monthLoop start_date end_date 0 days_in_each_month false

/-- Shape of a successful `checkedShift`: the exact shifted value, inside
the representable range. -/
theorem checkedShift_eq (t : Nat) (delta : Int) (u : Nat)
    (h : checkedShift t delta = some u) :
    (u : Int) = (t : Int) + delta ∧ u ≤ maxTS := by
  unfold checkedShift at h
  split_ifs at h with hc
  simp only [Option.some.injEq] at h
  subst h
  constructor
  · omega
  · omega

/-- C4: for every instant, the DST offset rule returns −7 exactly when the
instant lies strictly between the hard-coded 2024 transition instants
2024-03-10T02:00 and 2024-11-03T01:00, never returns anything other than
−7 or −8, and returns −8 at both transition boundaries themselves. -/
theorem C4_timezone_offset_rule :
    (∀ t : Nat, timezone_offset t = -7 ↔ (DST_start < t ∧ t < DST_end)) ∧
    (∀ t : Nat, timezone_offset t = -7 ∨ timezone_offset t = -8) ∧
    timezone_offset DST_start = -8 ∧ timezone_offset DST_end = -8 := by
  refine ⟨?_, ?_, by decide, by decide⟩
  · intro t
    unfold timezone_offset
    split_ifs with h
    · constructor
      · intro _; omega
      · intro _; rfl
    · push_neg at h
      constructor
      · intro h2; omega
      · intro h2; omega
  · intro t
    unfold timezone_offset
    split_ifs with h
    · exact Or.inl rfl
    · exact Or.inr rfl

/-- C4 witness: one second past the spring transition the rule yields −7. -/
theorem C4_timezone_offset_rule_witness :
    timezone_offset (DST_start + 1) = -7 :=
  (C4_timezone_offset_rule.1 (DST_start + 1)).mpr ⟨by omega, by decide⟩

/-- C5: in the per-day path a result with fewer than 10 rows is never
written (in particular a 9-row result), a nonempty result with at least 10
rows is written, and in the alternate single-shot path the threshold is
20. -/
theorem C5_row_threshold_gate :
    (∀ rows cols : Nat, rows < 10 → process_results rows cols = false) ∧
    (∀ cols : Nat, process_results 9 cols = false) ∧
    (∀ rows cols : Nat, 10 ≤ rows → 1 ≤ cols →
      process_results rows cols = true) ∧
    (∀ rows : Nat, rows < 20 → batched_data_writes rows = false) ∧
    (∀ rows : Nat, 20 ≤ rows → batched_data_writes rows = true) := by
  refine ⟨?_, ?_, ?_, ?_, ?_⟩
  · intro rows cols h
    unfold process_results
    split_ifs <;> first | rfl | omega
  · intro cols
    unfold process_results
    split_ifs <;> first | rfl | omega
  · intro rows cols h1 h2
    unfold process_results
    split_ifs with g1 g2
    · exact absurd g1 (by rcases Nat.eq_zero_or_pos cols with g | g <;> positivity)
    · omega
    · rfl
  · intro rows h
    unfold batched_data_writes
    simp only [decide_eq_false_iff_not]
    omega
  · intro rows h
    unfold batched_data_writes
    simp only [decide_eq_true_eq]
    omega

/-- C5 witness: a 9-row result is discarded, a 10-row one persisted; in
the single-shot path 19 rows are discarded and 20 persisted. -/
theorem C5_row_threshold_gate_witness :
    process_results 9 5 = false ∧ process_results 10 5 = true ∧
    batched_data_writes 19 = false ∧ batched_data_writes 20 = true :=
  ⟨C5_row_threshold_gate.2.1 5,
   C5_row_threshold_gate.2.2.1 10 5 (by omega) (by omega),
   C5_row_threshold_gate.2.2.2.1 19 (by omega),
   C5_row_threshold_gate.2.2.2.2 20 (by omega)⟩

/-- C7: for an operand of any unsupported kind, both addition and
subtraction with a `DeltaTime` — in either operand order — raise
`TypeError` instead of returning a value. -/
theorem C7_unsupported_operand (d : DeltaTime) :
    d.add .other = .typeErr ∧ d.sub .other = .typeErr ∧
    pyAddRight .other d = .typeErr ∧ pySubRight .other d = .typeErr :=
  ⟨rfl, rfl, rfl, rfl⟩

/-- C7 witness: the rule instantiated at a one-hour offset. -/
theorem C7_unsupported_operand_witness :
    DeltaTime.add ⟨0, 1, 0, 0⟩ .other = .typeErr ∧
    DeltaTime.sub ⟨0, 1, 0, 0⟩ .other = .typeErr ∧
    pyAddRight .other ⟨0, 1, 0, 0⟩ = .typeErr ∧
    pySubRight .other ⟨0, 1, 0, 0⟩ = .typeErr :=
  C7_unsupported_operand ⟨0, 1, 0, 0⟩

/-- C1: evaluation of `construct_query_time_endpoints` at the claim's
inputs.  With `tz_offset = 0` the claimed pair is produced, and the general
`format(reference + offset - timedelta(hours=tz_offset))` formula is what
the code computes; but with `tz_offset = -8` the code subtracts a negative
duration and so returns 16:00/19:00, not the 00:00/03:00 pair that the
claim (and the repository's own test
`test_create_query_endpoints_timezone`) expects. -/
theorem C1_endpoints_failing_input :
    construct_query_time_endpoints (.str "2024-05-16T10:00:00Z")
      (.tup [0, -2, 0, 0]) (.tup [0, 1, 0, 0]) 0 =
      some ("2024-05-16T08:00:00Z", "2024-05-16T11:00:00Z") ∧
    construct_query_time_endpoints (.str "2024-05-16T10:00:00Z")
      (.tup [0, -2, 0, 0]) (.tup [0, 1, 0, 0]) (-8) =
      some ("2024-05-16T16:00:00Z", "2024-05-16T19:00:00Z") ∧
    construct_query_time_endpoints (.str "2024-05-16T10:00:00Z")
      (.tup [0, -2, 0, 0]) (.tup [0, 1, 0, 0]) (-8) ≠
      some ("2024-05-16T00:00:00Z", "2024-05-16T03:00:00Z") := by
  refine ⟨by decide, by decide, by decide⟩

/-- C2: evaluation of the range walk at start 2024-05-16, end 2024-05-20.
The claim says the walk visits May 16 through May 19 and stops at the end
date; instead the code (comparing the 1-based start month against the
0-based `enumerate` index, and the start day against the month length)
skips all of May including the start day, never reaches a day equal to the
end date, and visits every day from June 1 to December 31 — 214 calls. -/
theorem C2_range_walk_failing_input :
    (query_data_for_range ⟨2024, 5, 16⟩ ⟨2024, 5, 20⟩).length = 214 ∧
    (⟨2024, 5, 16⟩ : PyDate) ∉ query_data_for_range ⟨2024, 5, 16⟩ ⟨2024, 5, 20⟩ ∧
    (⟨2024, 5, 17⟩ : PyDate) ∉ query_data_for_range ⟨2024, 5, 16⟩ ⟨2024, 5, 20⟩ ∧
    (query_data_for_range ⟨2024, 5, 16⟩ ⟨2024, 5, 20⟩).head? =
      some ⟨2024, 6, 1⟩ ∧
    (query_data_for_range ⟨2024, 5, 16⟩ ⟨2024, 5, 20⟩).getLast? =
      some ⟨2024, 12, 31⟩ := by
  refine ⟨by decide, by decide, by decide, by decide, by decide⟩

/-- C3 counterexample: reflected subtraction with a `timedelta` operand
(`timedelta(0) - DeltaTime(0,1,0,0)`) returns the offset's duration minus
the external value (+3600 s), not the external value minus the offset's
duration (−3600 s); and subtraction with a string operand raises
`TypeError` although addition supports strings. -/
theorem C3_counterexample :
    pySubRight (.td 0) ⟨0, 1, 0, 0⟩ = .td 3600 ∧
    (0 : Int) - DeltaTime.to_timedelta ⟨0, 1, 0, 0⟩ = -3600 ∧
    pySubRight (.td 0) ⟨0, 1, 0, 0⟩ ≠ .td (-3600) ∧
    DeltaTime.add ⟨0, 1, 0, 0⟩ (.str "2024-05-16T10:00:00Z") =
      .dt 63851454000 ∧
    DeltaTime.sub ⟨0, 1, 0, 0⟩ (.str "2024-05-16T10:00:00Z") = .typeErr := by
  refine ⟨by decide, by decide, by decide, by decide, by decide⟩

/-- C3 (amended): subtraction mirrors addition for duration,
absolute-timestamp and `RelativeOffset` operands, but not for formatted
timestamp strings, where it raises `TypeError` once the parse succeeds;
reflected subtraction computes external-value-minus-offset only for
absolute timestamps and for `RelativeOffset` left operands, while for a
duration left operand it returns the offset's duration minus the external
value. -/
theorem C3_sub_behavior :
    (∀ (d : DeltaTime) (x : Int), d.sub (.td x) = .td (d.to_timedelta - x)) ∧
    (∀ (d d2 : DeltaTime),
      d.sub (.delta d2) = .td (d.to_timedelta - d2.to_timedelta)) ∧
    (∀ (d : DeltaTime) (t u : Nat),
      checkedShift t (- d.to_timedelta) = some u → d.sub (.dt t) = .dt u) ∧
    (∀ (d : DeltaTime) (s : String) (u : Nat),
      parseTime s = some u → d.sub (.str s) = .typeErr) ∧
    (∀ (d : DeltaTime) (t u : Nat),
      checkedShift t (- d.to_timedelta) = some u →
        pySubRight (.dt t) d = .dt u) ∧
    (∀ (d d2 : DeltaTime),
      pySubRight (.delta d2) d = .td (d2.to_timedelta - d.to_timedelta)) ∧
    (∀ (d : DeltaTime) (x : Int),
      pySubRight (.td x) d = .td (d.to_timedelta - x)) := by
  refine ⟨fun d x => rfl, fun d d2 => rfl, ?_, ?_, ?_, fun d d2 => rfl,
    fun d x => rfl⟩
  · intro d t u h
    unfold DeltaTime.sub
    dsimp only
    rw [h]
  · intro d s u h
    unfold DeltaTime.sub
    dsimp only
    rw [h]
  · intro d t u h
    unfold pySubRight DeltaTime.sub
    dsimp only
    rw [h]

/-- C3 amended-claim witness: the datetime case instantiated at
2024-05-16T10:00:00 minus a one-hour offset. -/
theorem C3_sub_behavior_witness :
    checkedShift 63851450400 (- DeltaTime.to_timedelta ⟨0, 1, 0, 0⟩) =
      some 63851446800 ∧
    DeltaTime.sub ⟨0, 1, 0, 0⟩ (.dt 63851450400) = .dt 63851446800 :=
  ⟨by decide, C3_sub_behavior.2.2.1 ⟨0, 1, 0, 0⟩ 63851450400 63851446800
    (by decide)⟩

/-- C8: the column-drop operation never fails: the requested labels are
first filtered to those present, so the drop always succeeds, absent
labels are no-ops (the result is exactly the present columns not listed),
every present listed column is removed, and every other column is kept. -/
theorem C8_drop_columns_never_fails :
    ∀ cols toDrop : List String,
      drop_columns cols toDrop =
        .ok (cols.filter (fun c => !(toDrop.contains c))) ∧
      (∀ c, c ∈ toDrop →
        c ∉ cols.filter (fun c => !(toDrop.contains c))) ∧
      (∀ c, c ∈ cols → c ∉ toDrop →
        c ∈ cols.filter (fun c => !(toDrop.contains c))) := by
  intro cols toDrop
  refine ⟨?_, ?_, ?_⟩
  · unfold drop_columns pdDrop
    rw [if_pos]
    · congr 1
      apply List.filter_congr
      intro c hc
      have hq : decide (c ∈ cols) = true := decide_eq_true hc
      simp only [List.contains, List.elem_eq_mem]
      congr 1
      rw [decide_eq_decide]
      constructor
      · intro hm
        exact (List.mem_filter.mp hm).1
      · intro hm
        refine List.mem_filter.mpr ⟨hm, ?_⟩
        simpa using hq
    · simp only [List.all_eq_true]
      intro c hcm
      exact (List.mem_filter.mp hcm).2
  · intro c hct hmem
    simp only [List.mem_filter, List.contains, List.elem_eq_mem,
      Bool.not_eq_true', decide_eq_false_iff_not] at hmem
    exact hmem.2 hct
  · intro c hc hnot
    refine List.mem_filter.mpr ⟨hc, ?_⟩
    simp only [List.contains, List.elem_eq_mem, Bool.not_eq_true',
      decide_eq_false_iff_not]
    exact hnot

/-- C8 witness: dropping one present and one absent label from a two-column
frame succeeds and removes exactly the present listed column. -/
theorem C8_drop_columns_never_fails_witness :
    drop_columns ["a", "b"] ["b", "zz"] = .ok ["a"] ∧
    "b" ∉ List.filter (fun c => !(["b", "zz"].contains c)) ["a", "b"] ∧
    "a" ∈ List.filter (fun c => !(["b", "zz"].contains c)) ["a", "b"] :=
  ⟨by have h := (C8_drop_columns_never_fails ["a", "b"] ["b", "zz"]).1
      rw [h]
      have hf : List.filter (fun c => !(["b", "zz"].contains c)) ["a", "b"]
          = ["a"] := by decide
      rw [hf],
   (C8_drop_columns_never_fails ["a", "b"] ["b", "zz"]).2.1 "b" (by decide),
   (C8_drop_columns_never_fails ["a", "b"] ["b", "zz"]).2.2 "a" (by decide)
     (by decide)⟩

/-- Every date the inner day loop emits has year 2024. -/
theorem dayLoop_year (sd ed : PyDate) (month days : Nat) :
    ∀ rem j p, p ∈ (dayLoop sd ed month days j rem).1 → p.year = 2024 := by
  intro rem
  induction rem with
  | zero =>
    intro j p hp
    simp [dayLoop] at hp
  | succ r ih =>
    intro j p hp
    rw [dayLoop] at hp
    split_ifs at hp with h1 h2
    · exact ih (j + 1) p hp
    · simp at hp
    · dsimp only at hp
      rcases List.mem_cons.mp hp with h | h
      · rw [h]
      · exact ih (j + 1) p h

/-- Every date the outer month loop emits has year 2024. -/
theorem monthLoop_year (sd ed : PyDate) :
    ∀ table month up p, p ∈ monthLoop sd ed month table up → p.year = 2024 := by
  intro table
  induction table with
  | nil =>
    intro month up p hp
    simp [monthLoop] at hp
  | cons days rest ih =>
    intro month up p hp
    rw [monthLoop] at hp
    split_ifs at hp with h1 h2
    · exact ih (month + 1) up p hp
    · simp at hp
    · dsimp only at hp
      rcases List.mem_append.mp hp with h | h
      · exact dayLoop_year sd ed month days days 0 p h
      · exact ih (month + 1) _ p h

/-- C10: every date that range extraction passes to single-day extraction
has calendar year 2024, for every pair of input dates, whatever their
years: the constructed dates hard-code `datetime(2024, month+1, j+1)`. -/
theorem C10_range_walk_year_2024 :
    ∀ (start_date end_date : PyDate) (p : PyDate),
      p ∈ query_data_for_range start_date end_date → p.year = 2024 := by
  intro sd ed p hp
  exact monthLoop_year sd ed days_in_each_month 0 false p hp

/-- C10 witness: with a 1999 start date and a 2030 end date the first
visited day exists and has year 2024. -/
theorem C10_range_walk_year_2024_witness :
    (⟨2024, 2, 1⟩ : PyDate) ∈ query_data_for_range ⟨1999, 1, 1⟩ ⟨2030, 1, 5⟩ ∧
    (⟨2024, 2, 1⟩ : PyDate).year = 2024 :=
  ⟨by decide, C10_range_walk_year_2024 ⟨1999, 1, 1⟩ ⟨2030, 1, 5⟩ ⟨2024, 2, 1⟩
    (by decide)⟩

/-- A parsed digit is at most 9. -/
theorem fromDigit_le (c : Char) (a : Nat) (h : fromDigit c = some a) :
    a ≤ 9 := by
  unfold fromDigit at h
  split_ifs at h with hc
  simp only [Option.some.injEq] at h
  omega

/-- A parsed four-digit number is at most 9999. -/
theorem digit4_le (c1 c2 c3 c4 : Char) (y : Nat)
    (h : digit4 c1 c2 c3 c4 = some y) : y ≤ 9999 := by
  unfold digit4 at h
  split at h
  · rename_i a b c d ha hb hc hd
    simp only [Option.some.injEq] at h
    have h1 := fromDigit_le c1 a ha
    have h2 := fromDigit_le c2 b hb
    have h3 := fromDigit_le c3 c hc
    have h4 := fromDigit_le c4 d hd
    omega
  · simp at h

/-- `days_before_year` is monotone. -/
theorem days_before_year_mono (a b : Nat) (h : a ≤ b) :
    days_before_year a ≤ days_before_year b := by
  induction b with
  | zero =>
    have ha : a = 0 := by omega
    subst ha
    exact Nat.le_refl _
  | succ n ih =>
    by_cases hab : a = n + 1
    · subst hab
      exact Nat.le_refl _
    · have h2 := ih (by omega)
      by_cases hn : 1 ≤ n
      · have hstep := days_before_year_succ n hn
        split_ifs at hstep <;> omega
      · have hn0 : n = 0 := by omega
        subst hn0
        have he1 : days_before_year 1 = 0 := by decide
        have he0 : days_before_year 0 = 0 := by decide
        omega

/-- Days-before-month never exceeds 335 for a real month number. -/
theorem days_before_month_le (y m : Nat) (hm1 : 1 ≤ m) (hm : m ≤ 12) :
    days_before_month y m ≤ 335 := by
  interval_cases m <;> simp [days_before_month] <;> split_ifs <;> omega

/-- In a non-leap year, days-before-month never exceeds 334 for a real
month number. -/
theorem days_before_month_le_nonleap (y m : Nat) (hm1 : 1 ≤ m) (hm : m ≤ 12)
    (hL : isLeap y = false) : days_before_month y m ≤ 334 := by
  interval_cases m <;> simp [days_before_month, hL]

/-- Every calendar-valid date has ordinal at most `maxOrd`. -/
theorem ymd2ord_le_maxOrd (y mo d : Nat) (hy1 : 1 ≤ y) (hy : y ≤ 9999)
    (hmo1 : 1 ≤ mo) (hmo : mo ≤ 12) (hd1 : 1 ≤ d)
    (hd : d ≤ daysInMonth y mo) : ymd2ord y mo d ≤ maxOrd := by
  have hmax : maxOrd = 3652059 := by decide
  have hdim := daysInMonth_le y mo
  unfold ymd2ord
  by_cases h9 : y ≤ 9998
  · have hmono := days_before_year_mono y 9998 h9
    have h98 : days_before_year 9998 = 3651329 := by decide
    have hdbm := days_before_month_le y mo hmo1 hmo
    omega
  · have hy99 : y = 9999 := by omega
    subst hy99
    have h99 : days_before_year 9999 = 3651694 := by decide
    have hL : isLeap 9999 = false := by decide
    have hdbm := days_before_month_le_nonleap 9999 mo hmo1 hmo hL
    omega

/-- Every timestamp produced by a successful parse is representable. -/
theorem parseTime_le_maxTS (str : String) (u : Nat)
    (h : parseTime str = some u) : u ≤ maxTS := by
  unfold parseTime at h
  split at h
  · rename_i y1 y2 y3 y4 q1 m1 m2 q2 d1 d2 q3 h1 h2 q4 i1 i2 q5 s1 s2 q6 heq
    split_ifs at h with hsep
    · split at h
      · rename_i y mo d hh mi s hy hmo hd hhh hmi hs
        split_ifs at h with hrange
        · simp only [Option.some.injEq] at h
          obtain ⟨hy1, hmo1, hmo2, hd1, hd2, hh23, hi59, hs59⟩ := hrange
          have hy4 := digit4_le y1 y2 y3 y4 y hy
          have hord := ymd2ord_le_maxOrd y mo d hy1 hy4 hmo1 hmo2 hd1 hd2
          have h1le : 1 ≤ ymd2ord y mo d := by
            unfold ymd2ord
            omega
          unfold maxTS
          have hmax : maxOrd = 3652059 := by decide
          omega
        all_goals simp at h
      all_goals simp at h
    all_goals simp at h
  all_goals simp at h

/-- With a positive step, a fuel of at least `endT + 1 - cur` is enough:
the loop never hits the fuel bound or the overflow branch (given that one
step past `endT` stays representable), and it computes exactly the
sequence described by the specification. -/
theorem genGo_eq_specGen (endT : Nat) (delta : Int) (hd : 0 < delta)
    (hov : (endT : Int) + delta ≤ (maxTS : Int)) :
    ∀ fuel cur, endT + 1 - cur ≤ fuel → (cur : Int) ≤ (maxTS : Int) →
      genGo endT delta fuel cur = some (specGen endT delta hd cur) := by
  intro fuel
  induction fuel with
  | zero =>
    intro cur hf hc
    have hgt : endT < cur := by omega
    simp only [genGo]
    rw [if_neg (by omega)]
    conv_rhs => rw [specGen]
    rw [if_neg (by omega)]
  | succ f ih =>
    intro cur hf hc
    by_cases hle : cur ≤ endT
    · have hsh : checkedShift cur delta = some ((cur : Int) + delta).toNat := by
        unfold checkedShift
        rw [if_pos ⟨by omega, by omega⟩]
      simp only [genGo]
      rw [if_pos hle, hsh]
      dsimp only
      rw [ih ((cur : Int) + delta).toNat (by omega) (by omega)]
      conv_rhs => rw [specGen]
      rw [if_pos hle]
    · simp only [genGo]
      rw [if_neg hle]
      conv_rhs => rw [specGen]
      rw [if_neg hle]

/-- C6: for all parseable endpoint strings and every positive delta (whose
single step past the end stays in the representable range), the generator
returns exactly the inclusive start-to-end sequence of the specification —
in particular it terminates — and on the concrete claim inputs it yields
the three daily strings of February 1–3, 2024. -/
theorem C6_generate_datetime_list :
    (∀ (start_date end_date : String) (delta : Int) (hd : 0 < delta)
        (s e : Nat), parseTime start_date = some s →
        parseTime end_date = some e → (e : Int) + delta ≤ (maxTS : Int) →
        generate_datetime_list start_date end_date delta =
          some (specGen e delta hd s)) ∧
    generate_datetime_list "2024-02-01T00:00:00Z" "2024-02-03T00:00:00Z"
        86400 =
      some ["2024-02-01T00:00:00Z", "2024-02-02T00:00:00Z",
        "2024-02-03T00:00:00Z"] := by
  constructor
  · intro sd ed delta hd s e hs he hov
    have hsle := parseTime_le_maxTS sd s hs
    unfold generate_datetime_list
    rw [hs, he]
    dsimp only
    exact genGo_eq_specGen e delta hd hov (e + 1 - s) s (by omega) (by omega)
  · decide

/-- C6 witness: the general sequence characterisation instantiated at the
concrete February example. -/
theorem C6_generate_datetime_list_witness :
    generate_datetime_list "2024-02-01T00:00:00Z" "2024-02-03T00:00:00Z"
        86400 =
      some (specGen 63842515200 86400 (by norm_num) 63842342400) :=
  C6_generate_datetime_list.1 "2024-02-01T00:00:00Z" "2024-02-03T00:00:00Z"
    86400 (by norm_num) 63842342400 63842515200 (by decide) (by decide)
    (by decide)

/-- C9: the window length is independent of the timezone offset — parsing
the two strings returned by `construct_query_time_endpoints` and
subtracting yields exactly the end offset's duration minus the start
offset's duration, for every reference time, offset pair and
`tz_offset`, because the same `timedelta(hours=tz_offset)` is subtracted
from both endpoints. -/
theorem C9_window_length_tz_invariant :
    ∀ (query_time : QueryTime) (dsA deA : DeltaArg) (tz : Int)
      (ds de : DeltaTime) (s1 s2 : String),
      coerceDelta dsA = some ds → coerceDelta deA = some de →
      construct_query_time_endpoints query_time dsA deA tz =
        some (s1, s2) →
      ∃ u1 u2 : Nat, parseTime s1 = some u1 ∧ parseTime s2 = some u2 ∧
        (u2 : Int) - (u1 : Int) = de.to_timedelta - ds.to_timedelta := by
  intro qt dsA deA tz ds de s1 s2 hds hde h
  unfold construct_query_time_endpoints at h
  rw [hds, hde] at h
  dsimp only at h
  split at h
  · rename_i q hq
    split at h
    · rename_i v1 hc1
      split at h
      · rename_i v2 hc2
        split at h
        · rename_i v3 hc3
          split at h
          · rename_i v4 hc4
            simp only [Option.some.injEq, Prod.mk.injEq] at h
            obtain ⟨hs1, hs2⟩ := h
            subst hs1
            subst hs2
            obtain ⟨he1, hb1⟩ := checkedShift_eq q ds.to_timedelta v1 hc1
            obtain ⟨he2, hb2⟩ := checkedShift_eq v1 (-(3600 * tz)) v2 hc2
            obtain ⟨he3, hb3⟩ := checkedShift_eq q de.to_timedelta v3 hc3
            obtain ⟨he4, hb4⟩ := checkedShift_eq v3 (-(3600 * tz)) v4 hc4
            exact ⟨v2, v4, parseTime_formatTime v2 hb2,
              parseTime_formatTime v4 hb4, by omega⟩
          all_goals simp at h
        all_goals simp at h
      all_goals simp at h
    all_goals simp at h
  all_goals simp at h

/-- C9 witness: the invariance instantiated at the claim's reference time
and offsets with `tz_offset = 0`; the window is three hours long. -/
theorem C9_window_length_tz_invariant_witness :
    ∃ u1 u2 : Nat, parseTime "2024-05-16T08:00:00Z" = some u1 ∧
      parseTime "2024-05-16T11:00:00Z" = some u2 ∧
      (u2 : Int) - (u1 : Int) =
        DeltaTime.to_timedelta ⟨0, 1, 0, 0⟩ -
          DeltaTime.to_timedelta ⟨0, -2, 0, 0⟩ :=
  C9_window_length_tz_invariant (.str "2024-05-16T10:00:00Z")
    (.tup [0, -2, 0, 0]) (.tup [0, 1, 0, 0]) 0 ⟨0, -2, 0, 0⟩ ⟨0, 1, 0, 0⟩
    "2024-05-16T08:00:00Z" "2024-05-16T11:00:00Z" (by decide) (by decide)
    (by decide)
